import Mathlib

/-!
Verification development for the SpaceDebris ingestion/caching/broadcast
pipeline.  The Python source (`app.py` and
`src/visualization/orbit_visualizer.py`) is shallowly embedded below:
raw provider records become a structure of optionally-present field values,
stateful classes (`DataCache`, `RateLimiter`) become structures with explicit
state-passing operations, the retry loop of `fetch_space_objects` becomes a
recursive function over an injected sequence of responses, and wall-clock
times become rational parameters.  Trigonometric functions (used only for
the visualization position, which no property inspects numerically) are
passed in as an abstract `TrigModel`, and the nondeterministic jitter of the
backoff is a parameter constrained by hypotheses.
-/

namespace SpaceDebris

/-- A field of a raw provider record: absent from the JSON object, a numeric
value (JSON number or numeric string, which Python `float` accepts), or a
non-numeric string (on which Python `float` raises `ValueError`). -/
inductive FieldVal where
  | absent
  | num (q : ℚ)
  | str (s : String)
deriving DecidableEq

/-- Embeds `float(obj.get(KEY, 0))`: an absent key defaults to `0`, a
numeric value converts, a non-numeric string raises (modelled as `none`). -/
def FieldVal.toFloat : FieldVal → Option ℚ
  | .absent => some 0
  | .num q => some q
  | .str _ => none

/-- Embeds Python `str.lower()` on the ASCII data the pipeline handles
(provider type tags and error text): each ASCII uppercase letter is shifted
to its lowercase form, all other characters are unchanged. -/
def pyLower (s : String) : String :=
  ⟨s.data.map (fun c => if 'A' ≤ c && c ≤ 'Z' then Char.ofNat (c.toNat + 32) else c)⟩

/-- Whether the second list starts the first (helper for the substring
test below). -/
def listHasPrefix : List Char → List Char → Bool
  | _, [] => true
  | [], _ :: _ => false
  | a :: as, b :: bs => a == b && listHasPrefix as bs

/-- Whether the second list occurs contiguously inside the first. -/
def listContainsSub : List Char → List Char → Bool
  | [], needle => needle.isEmpty
  | a :: rest, needle => listHasPrefix (a :: rest) needle || listContainsSub rest needle

/-- Embeds the Python substring test `needle in hay`. -/
def strContainsSub (hay needle : String) : Bool := listContainsSub hay.data needle.data

/-- A raw record from the provider, with the keys `app.py` reads.
`objectType` folds in the `obj.get('OBJECT_TYPE', '')` default. -/
structure RawRecord where
  semimajorAxis : FieldVal := .num 7000
  eccentricity : FieldVal := .num 0
  inclination : FieldVal := .num 0
  perigee : FieldVal := .num 0
  objectType : String := ""
  noradCatId : String := ""
  objectName : String := "Unknown"
  mass : ℚ := 0
  epoch : String := ""
deriving DecidableEq

/-- Embeds `calculate_risk_level` (app.py lines 289-305): base risk 50,
`+20` if `perigee < 500`, `elif perigee > 35000` then `-20`, `+15` if the
raw `OBJECT_TYPE` lowercased equals `"debris"`, clamped to `[0, 100]`.
`none` models the `ValueError` raised by `float` on a non-numeric perigee
(which the caller's per-record handler turns into a skip). -/
def calculate_risk_level (obj : RawRecord) : Option ℤ :=
  obj.perigee.toFloat.map (fun p =>
    let r1 : ℤ := if p < 500 then 50 + 20 else if p > 35000 then 50 - 20 else 50
    let r2 : ℤ := if pyLower obj.objectType = "debris" then r1 + 15 else r1
    max 0 (min 100 r2))

/-- The pre-clamp risk value of `calculate_risk_level` (the local `risk`
variable just before `max(0, min(100, risk))`). -/
def risk_unclamped (obj : RawRecord) : Option ℤ :=
  obj.perigee.toFloat.map (fun p =>
    let r1 : ℤ := if p < 500 then 50 + 20 else if p > 35000 then 50 - 20 else 50
    if pyLower obj.objectType = "debris" then r1 + 15 else r1)

/-- Abstract model of `math.cos` / `math.sin`, supplied as parameters since
no verified property inspects position values numerically. -/
structure TrigModel where
  cos : ℚ → ℚ
  sin : ℚ → ℚ

/-- The literal `3.14159` used by `process_space_objects`. -/
def piApprox : ℚ := 314159 / 100000

/-- One processed visualization object, with the exact fields built by
`process_space_objects` (metadata flattened into the last three fields). -/
structure SpaceObject where
  id : String
  type : String
  position : ℚ × ℚ × ℚ
  radius : ℚ
  inclination : ℚ
  risk_level : ℤ
  origin : String
  estimated_mass : ℚ
  first_observed : String
deriving DecidableEq

/-- The body of the per-record `try` block of `process_space_objects`
(app.py lines 250-285): convert the three orbital fields with
`float(obj.get(..., 0))`, compute the position, classify debris from the
raw type string, and compute the risk level (whose perigee conversion can
also raise).  Any conversion failure is caught and the record skipped,
modelled as `none`.  `phase` stands for `utcnow().timestamp() % 360`. -/
def processRecord (T : TrigModel) (phase : ℚ) (obj : RawRecord) : Option SpaceObject :=
  match obj.semimajorAxis.toFloat, obj.eccentricity.toFloat, obj.inclination.toFloat,
        calculate_risk_level obj with
  | some a, some e, some i, some risk =>
    let radius := a * (1 - e)
    let angle := phase * (piApprox / 180)
    let is_debris : Bool := pyLower obj.objectType = "debris" || pyLower obj.objectType = "unknown"
    some { id := obj.noradCatId,
           type := if is_debris then "debris" else "satellite",
           position := (radius * (1 / 10000) * T.cos angle,
                        radius * (1 / 10000) * T.sin angle * T.cos (i * (piApprox / 180)),
                        radius * (1 / 10000) * T.sin angle * T.sin (i * (piApprox / 180))),
           radius := if is_debris then 1 / 10 else 15 / 100,
           inclination := i,
           risk_level := risk,
           origin := obj.objectName,
           estimated_mass := obj.mass,
           first_observed := obj.epoch }
  | _, _, _, _ => none

/-- A record survives processing exactly when no required field is a
non-numeric string (absent fields default to 0 and numeric fields parse). -/
def recordOk (obj : RawRecord) : Bool :=
  obj.semimajorAxis.toFloat.isSome && obj.eccentricity.toFloat.isSome &&
  obj.inclination.toFloat.isSome && obj.perigee.toFloat.isSome

/-- Embeds `process_space_objects` restricted to list inputs (the dict /
non-list branches return `None` and are modelled in the fetch loop's
response type): an empty list returns `None`, otherwise each record is
processed and failing records are skipped. -/
def process_space_objects (T : TrigModel) (phase : ℚ) (data : List RawRecord) :
    Option (List SpaceObject) :=
  if data.isEmpty then none
  else some (data.filterMap (processRecord T phase))

/-- Embeds the `DataCache` class (app.py lines 45-60), generic in the
element type (the Python class stores whatever list it is given).  Times
are rational timestamps passed explicitly. -/
structure DataCache (α : Type) where
  data : Option (List α) := none
  last_update : Option ℚ := none
  ttl_seconds : ℚ := 300

/-- `DataCache.set`: store the list and stamp the current time. -/
def DataCache.set {α : Type} (c : DataCache α) (d : List α) (now : ℚ) : DataCache α :=
  { c with data := some d, last_update := some now }

/-- `DataCache.get`: `None` when `not self.data` (no entry, or an empty
list, which is falsy in Python) or no timestamp, `None` when the entry is
strictly older than `ttl_seconds`, else the stored list. -/
def DataCache.get {α : Type} (c : DataCache α) (now : ℚ) : Option (List α) :=
  match c.data, c.last_update with
  | some d, some lu =>
    if d.isEmpty then none
    else if now - lu > c.ttl_seconds then none
    else some d
  | _, _ => none

/-- Embeds the `RateLimiter` class state (app.py lines 20-34). -/
structure RateLimiter where
  requests_per_window : ℕ := 1
  window_seconds : ℚ := 30
  requests : List ℚ := []

/-- Embeds `RateLimiter.acquire`: keep only timestamps with
`now - ts < window_seconds` (note: an entry aged exactly `window_seconds`
is pruned), then admit and append `now` iff fewer than
`requests_per_window` remain. -/
def RateLimiter.acquire (r : RateLimiter) (now : ℚ) : Bool × RateLimiter :=
  let pruned := r.requests.filter (fun ts => decide (now - ts < r.window_seconds))
  if pruned.length < r.requests_per_window then
    (true, { r with requests := pruned ++ [now] })
  else
    (false, { r with requests := pruned })

/-- The rate limiter as constructed in app.py line 42. -/
def rateLimiter60 : RateLimiter :=
  { requests_per_window := 1, window_seconds := 60, requests := [] }

/-- The possible shapes of one upstream response, as classified by
`fetch_space_objects` (app.py lines 152-221): non-200 transport status,
JSON decode failure, a dict payload carrying an `error` string, a list of
records, or any other JSON shape. -/
inductive ApiResponse where
  | httpError (status : ℕ)
  | jsonError
  | errorPayload (msg : String)
  | records (data : List RawRecord)
  | unexpected
deriving DecidableEq

/-- Embeds `'rate limit' in data['error'].lower()` (app.py line 170). -/
def isRateLimitMsg (msg : String) : Bool := strContainsSub (pyLower msg) "rate limit"

/-- Embeds the retry loop of `fetch_space_objects` (app.py lines 148-221)
over an injected sequence of responses (`resp attempt` is the response the
provider gives on that attempt) and an injected jitter draw.  The first
argument counts the loop iterations left (`max_retries - attempt`); the
code's `attempt < max_retries - 1` test for "attempts remain" is
`0 < remaining` here.  The result pairs the list of sleep durations
(in order) with the returned object list (`[]` for every no-data exit).
Per the code: a non-200 status sleeps `retry_delay` and doubles it; a JSON
decode error sleeps `retry_delay` unchanged; a rate-limit error payload
sleeps `min(300, retry_delay * 2 ** attempt)` plus jitter; any other error
payload or non-list shape returns immediately; an empty list returns
immediately; a non-empty list is processed, and a falsy processing result
sleeps `retry_delay` and retries. -/
def fetchLoop (T : TrigModel) (phase : ℚ) (resp : ℕ → ApiResponse) (jit : ℕ → ℚ) :
    ℕ → ℕ → ℚ → List ℚ × List SpaceObject
  | 0, _, _ => ([], [])
  | remaining + 1, attempt, retryDelay =>
    match resp attempt with
    | .httpError _ =>
      if 0 < remaining then
        let rest := fetchLoop T phase resp jit remaining (attempt + 1) (retryDelay * 2)
        (retryDelay :: rest.1, rest.2)
      else ([], [])
    | .jsonError =>
      if 0 < remaining then
        let rest := fetchLoop T phase resp jit remaining (attempt + 1) retryDelay
        (retryDelay :: rest.1, rest.2)
      else ([], [])
    | .errorPayload msg =>
      if isRateLimitMsg msg then
        if 0 < remaining then
          let backoff := min 300 (retryDelay * 2 ^ attempt)
          let rest := fetchLoop T phase resp jit remaining (attempt + 1) retryDelay
          ((backoff + jit attempt) :: rest.1, rest.2)
        else ([], [])
      else ([], [])
    | .unexpected => ([], [])
    | .records data =>
      if data.isEmpty then ([], [])
      else
        match process_space_objects T phase data with
        | some out =>
          if out.isEmpty then
            if 0 < remaining then
              let rest := fetchLoop T phase resp jit remaining (attempt + 1) retryDelay
              (retryDelay :: rest.1, rest.2)
            else ([], [])
          else ([], out)
        | none =>
          if 0 < remaining then
            let rest := fetchLoop T phase resp jit remaining (attempt + 1) retryDelay
            (retryDelay :: rest.1, rest.2)
          else ([], [])

/-- Python truthiness of a credential environment variable: unset (`None`)
and the empty string are both falsy. -/
def credPresent : Option String → Bool
  | none => false
  | some s => !s.isEmpty

/-- Embeds `get_space_track_session` (app.py lines 81-126) at its decision
level: with a missing credential it returns `None` immediately (no login
attempt); otherwise the outcome depends on the HTTP login (`loginOk`),
whose transport details are outside the embedding. -/
def get_space_track_session (user pw : Option String) (loginOk : Bool) : Option Unit :=
  if credPresent user && credPresent pw then
    if loginOk then some () else none
  else none

/-- Embeds `fetch_space_objects` end to end (app.py lines 128-227): no
session means an immediate empty result; otherwise the retry loop runs
with `max_retries = 3` and initial `retry_delay = 60`. -/
def fetch_space_objects (user pw : Option String) (loginOk : Bool) (T : TrigModel)
    (phase : ℚ) (resp : ℕ → ApiResponse) (jit : ℕ → ℚ) : List SpaceObject :=
  match get_space_track_session user pw loginOk with
  | none => []
  | some _ => (fetchLoop T phase resp jit 3 0 60).2

/-- The message the websocket loop emits in one iteration. -/
inductive WsAction where
  | update (count : ℕ)
  | statusRetrying (n : ℕ)
  | errorMaxRetries
deriving DecidableEq

/-- Embeds one iteration of the websocket update loop (app.py lines
322-380) after the cache consultation: `cacheVal` is what the cache
returned, `fetched` what `fetch_space_objects` returns on a miss, and
`retry_count` the running failure counter.  Every outcome continues the
loop (the loop never terminates on upstream failure); the result is the
message sent plus the new retry counter. -/
def ws_step (cacheVal : Option (List SpaceObject)) (fetched : List SpaceObject)
    (retry_count : ℕ) : WsAction × ℕ :=
  match cacheVal with
  | some objs => (WsAction.update objs.length, retry_count)
  | none =>
    if fetched.isEmpty then
      let rc := retry_count + 1
      if 3 ≤ rc then (WsAction.errorMaxRetries, 0)
      else (WsAction.statusRetrying rc, rc)
    else (WsAction.update fetched.length, 0)

/-- A connected websocket client for the broadcast hub model
(`orbit_visualizer.py`): whether `accept()` succeeds and whether the k-th
batch send to it succeeds. -/
structure ClientModel where
  cid : ℕ
  acceptOk : Bool := true
  sendOk : ℕ → Bool := fun _ => true

/-- Splits a snapshot into consecutive batches of 10 (the
`range(0, len(objects), batch_size)` slicing of `register_client`),
structurally recursive on a fuel equal to the list length. -/
def batchesAux (fuel : ℕ) (l : List SpaceObject) : List (List SpaceObject) :=
  match fuel, l with
  | 0, _ => []
  | _, [] => []
  | f + 1, a :: rest => ((a :: rest).take 10) :: batchesAux f ((a :: rest).drop 10)

/-- The batches of 10 that `register_client` slices a snapshot into. -/
def batchesOf10 (l : List SpaceObject) : List (List SpaceObject) :=
  batchesAux l.length l

/-- The batches actually sent: the loop stops at the first failing send
(the inner `except` logs and `break`s), so the delivered batches are the
longest prefix on which every send succeeds. -/
def deliverBatches (ok : ℕ → Bool) : ℕ → List (List SpaceObject) → List (List SpaceObject)
  | _, [] => []
  | k, b :: bs => if ok k then b :: deliverBatches ok (k + 1) bs else []

/-- The outcome of `register_client`: the new registry, the batches
delivered to the new client, and the pacing sleeps performed (one 0.1s
sleep after each successfully sent batch). -/
structure RegisterResult where
  registry : List ClientModel
  delivered : List (List SpaceObject)
  sleeps : List ℚ

/-- Embeds `OrbitVisualizer.register_client` (orbit_visualizer.py lines
107-154): on a successful accept the client is appended to the registry
and the snapshot is sent in batches of 10 with a 0.1s sleep after each
sent batch; a failing batch send is swallowed by the inner handler, which
breaks out of the loop but leaves the registry untouched.  Only an error
outside the batch loop (a failing accept) reaches the outer handler, and
at that point the client was never added. -/
def register_client (hub : List ClientModel) (c : ClientModel)
    (snap : List SpaceObject) : RegisterResult :=
  if c.acceptOk then
    let delivered := deliverBatches c.sendOk 0 (batchesOf10 snap)
    { registry := hub ++ [c], delivered := delivered,
      sleeps := delivered.map (fun _ => (1 / 10 : ℚ)) }
  else
    { registry := hub, delivered := [], sleeps := [] }

/-- A trig model for concrete evaluations: both functions constantly 0
(only position components, which no property reads, depend on it). -/
def trig0 : TrigModel := ⟨fun _ => 0, fun _ => 0⟩

/-- A record with every required field absent from the JSON object. -/
def noFieldsRec : RawRecord :=
  { semimajorAxis := .absent, eccentricity := .absent, inclination := .absent,
    perigee := .absent }

/-- A well-formed low-orbit debris record (perigee 400, type "DEBRIS"). -/
def goodRec1 : RawRecord := { perigee := .num 400, objectType := "DEBRIS" }

/-- A well-formed high-orbit payload record (perigee 40000, "PAYLOAD"). -/
def goodRec2 : RawRecord := { perigee := .num 40000, objectType := "PAYLOAD" }

/-- A malformed record: its semi-major axis is a non-numeric string. -/
def badRec : RawRecord := { semimajorAxis := .str "oops" }

/-- A low-orbit record whose raw type tag is "UNKNOWN". -/
def unknownRec : RawRecord := { perigee := .num 400, objectType := "UNKNOWN" }

/-- The position `processRecord` computes under `trig0` for the default
orbital elements (semi-major axis 7000, eccentricity 0, inclination 0). -/
def defaultPos : ℚ × ℚ × ℚ :=
  (7000 * (1 - 0) * (1 / 10000) * 0,
   7000 * (1 - 0) * (1 / 10000) * 0 * 0,
   7000 * (1 - 0) * (1 / 10000) * 0 * 0)

/-- The object `processRecord trig0 0` produces from `unknownRec`. -/
def unknownObj : SpaceObject :=
  { id := "", type := "debris", position := defaultPos, radius := 1 / 10,
    inclination := 0, risk_level := 70, origin := "Unknown", estimated_mass := 0,
    first_observed := "" }

/-- The object `processRecord trig0 0` produces from `goodRec1`. -/
def debrisObj : SpaceObject :=
  { id := "", type := "debris", position := defaultPos, radius := 1 / 10,
    inclination := 0, risk_level := 85, origin := "Unknown", estimated_mass := 0,
    first_observed := "" }

/-- A provider that reports a rate-limit error on the first two attempts
and then delivers one good record. -/
def respRL : ℕ → ApiResponse := fun n =>
  if n = 0 then ApiResponse.errorPayload "You have exceeded the rate limit"
  else if n = 1 then ApiResponse.errorPayload "Rate Limit exceeded again"
  else ApiResponse.records [goodRec1]

/-- A 15-object snapshot (two batches of 10 and 5). -/
def snap15 : List SpaceObject := List.replicate 15 debrisObj

/-- A client that accepts but whose every batch send fails. -/
def cFail : ClientModel := { cid := 0, acceptOk := true, sendOk := fun _ => false }

/-- A client whose accept and sends all succeed. -/
def cGood : ClientModel := { cid := 1 }

/-! Theorems. -/

/-- Helper: a record is processed (not skipped) exactly when every
required field is absent or numeric. -/
theorem processRecord_isSome (T : TrigModel) (phase : ℚ) (obj : RawRecord) :
    (processRecord T phase obj).isSome = recordOk obj := by
  cases h1 : obj.semimajorAxis.toFloat <;> cases h2 : obj.eccentricity.toFloat <;>
    cases h3 : obj.inclination.toFloat <;> cases h4 : obj.perigee.toFloat <;>
      simp [processRecord, recordOk, calculate_risk_level, h1, h2, h3, h4]

/-- Helper: the transformer keeps exactly the records `recordOk` accepts. -/
theorem filterMap_length_eq_count (T : TrigModel) (phase : ℚ) (data : List RawRecord) :
    (data.filterMap (processRecord T phase)).length = (data.filter recordOk).length := by
  induction data with
  | nil => rfl
  | cons a l ih =>
    rw [List.filterMap_cons, List.filter_cons]
    cases hp : processRecord T phase a with
    | none =>
      have hok : recordOk a = false := by
        have h := processRecord_isSome T phase a
        rw [hp] at h
        exact h.symm
      simp [hok, ih]
    | some o =>
      have hok : recordOk a = true := by
        have h := processRecord_isSome T phase a
        rw [hp] at h
        exact h.symm
      simp [hok, ih]

/-- Helper: the fields of a processed object, in terms of the raw record. -/
theorem processRecord_fields (T : TrigModel) (phase : ℚ) (obj : RawRecord)
    (o : SpaceObject) (ho : processRecord T phase obj = some o) :
    o.type = (if (pyLower obj.objectType = "debris" || pyLower obj.objectType = "unknown")
        = true then "debris" else "satellite") ∧
    calculate_risk_level obj = some o.risk_level := by
  cases h1 : obj.semimajorAxis.toFloat with
  | none => simp [processRecord, h1] at ho
  | some a =>
    cases h2 : obj.eccentricity.toFloat with
    | none => simp [processRecord, h1, h2] at ho
    | some e =>
      cases h3 : obj.inclination.toFloat with
      | none => simp [processRecord, h1, h2, h3] at ho
      | some i =>
        cases h4 : calculate_risk_level obj with
        | none => simp [processRecord, h1, h2, h3, h4] at ho
        | some risk =>
          simp only [processRecord, h1, h2, h3, h4, Option.some.injEq] at ho
          subst ho
          exact ⟨rfl, rfl⟩

/-- Claim C1: for every raw record, the computed risk score equals
clamp(50, +20 if perigee < 500, -20 if perigee > 35000, +15 if the object
type is debris, to [0,100]); a record with perigee=400 and type "DEBRIS"
yields riskLevel 85, and one with perigee=40000 and type "PAYLOAD" yields
riskLevel 30. -/
theorem C1_risk_formula (obj : RawRecord) (p : ℚ) (h : obj.perigee.toFloat = some p) :
    calculate_risk_level obj = some (max 0 (min 100
      ((50 : ℤ) + (if p < 500 then 20 else 0) + (if p > 35000 then -20 else 0)
        + (if pyLower obj.objectType = "debris" then 15 else 0)))) ∧
    calculate_risk_level { perigee := .num 400, objectType := "DEBRIS" } = some 85 ∧
    calculate_risk_level { perigee := .num 40000, objectType := "PAYLOAD" } = some 30 := by
  refine ⟨?_, by decide, by decide⟩
  unfold calculate_risk_level
  rw [h, Option.map_some']
  congr 1
  by_cases h1 : p < 500 <;> by_cases h2 : p > 35000 <;>
    by_cases h3 : pyLower obj.objectType = "debris" <;>
      simp only [h1, h2, h3, if_true, if_false] <;> first | decide | linarith

/-- Witness for C1 at a concrete record (perigee 100, default type). -/
theorem C1_risk_formula_witness :
    calculate_risk_level { perigee := FieldVal.num 100 } = some 70 := by
  have h := (C1_risk_formula { perigee := FieldVal.num 100 } 100 rfl).1
  rw [h]; decide

/-- Claim C10: every computed risk score lies in [30, 85], the final clamp
to [0,100] never alters the pre-clamp value, and the score is never 0 and
never 100. -/
theorem C10_risk_range (obj : RawRecord) (r : ℤ) (h : calculate_risk_level obj = some r) :
    30 ≤ r ∧ r ≤ 85 ∧ risk_unclamped obj = some r ∧ r ≠ 0 ∧ r ≠ 100 := by
  cases hp : obj.perigee.toFloat with
  | none => simp [calculate_risk_level, hp] at h
  | some p =>
    by_cases h1 : p < 500 <;> by_cases h2 : p > 35000 <;>
      by_cases h3 : pyLower obj.objectType = "debris" <;>
        simp only [calculate_risk_level, risk_unclamped, hp, Option.map_some',
          h1, h2, h3, if_true, if_false, Option.some_inj] at h ⊢ <;>
          first | omega | linarith

/-- Witness for C10 at a concrete record. -/
theorem C10_risk_range_witness :
    risk_unclamped { perigee := FieldVal.num 400, objectType := "DEBRIS" } = some 85 := by
  exact (C10_risk_range { perigee := FieldVal.num 400, objectType := "DEBRIS" } 85
    (by decide)).2.2.1

/-- Claim C2 fails as stated: at elapsed time exactly `ttl` (300) the cache
still returns the snapshot (the code expires strictly after `ttl`, while
the claim says `now - createdAt >= ttl` returns nothing), and an empty
snapshot reads back as a miss even well within `ttl`. -/
theorem C2_cache_counterexample :
    ((({} : DataCache ℕ).set [1] 0).get 300 = some [1]) ∧
    ((({} : DataCache ℕ).set [] 0).get 100 = none) := by
  constructor <;> norm_num [DataCache.set, DataCache.get]

/-- Claim C2 (amended): for every non-empty snapshot X, set(X) then get()
with `now - createdAt <= ttl` returns exactly X, get() with
`now - createdAt > ttl` (strictly) returns nothing, and an empty snapshot
is always read back as a miss. -/
theorem C2_cache_ttl {α : Type} (c : DataCache α) (X : List α) (t now : ℚ) (hX : X ≠ []) :
    (now - t ≤ c.ttl_seconds → (c.set X t).get now = some X) ∧
    (now - t > c.ttl_seconds → (c.set X t).get now = none) ∧
    (∀ t2 n2 : ℚ, (c.set [] t2).get n2 = none) := by
  have hXe : X.isEmpty = false := by
    cases X with
    | nil => exact absurd rfl hX
    | cons a l => rfl
  refine ⟨fun hle => ?_, fun hgt => ?_, fun t2 n2 => ?_⟩
  · simp [DataCache.set, DataCache.get, hXe, not_lt.mpr hle]
  · simp [DataCache.set, DataCache.get, hXe, hgt]
  · simp [DataCache.set, DataCache.get]

/-- Witness for C2 at a concrete cache and snapshot. -/
theorem C2_cache_ttl_witness :
    (({} : DataCache ℕ).set [1] 0).get 100 = some [1] := by
  exact (C2_cache_ttl {} [1] 0 100 (by decide)).1 (by norm_num)

/-- Claim C3 fails as stated at the window boundary: with one recorded
request aged exactly `windowSeconds`, pruning only entries strictly "older
than windowSeconds" leaves it in place, so the claimed characterization
denies, but the code prunes entries aged exactly the window and admits. -/
theorem C3_limiter_counterexample :
    ((RateLimiter.mk 1 60 [0]).acquire 60).1 = true ∧
    ¬ (((RateLimiter.mk 1 60 [0]).requests.filter
          (fun ts => decide (¬ ((60 : ℚ) - ts > 60)))).length < 1) := by
  constructor <;> norm_num [RateLimiter.acquire]

/-- Claim C3 (amended): with requestsPerWindow=1 and windowSeconds=60, two
tryAcquire() calls within 60s of each other return (true, false) and a
third call once at least 60s have passed returns true; tryAcquire admits
(and appends the new timestamp) exactly when fewer than requestsPerWindow
timestamps remain after pruning entries whose age is at least
windowSeconds. -/
theorem C3_limiter (t1 t2 t3 : ℚ) (h2 : t2 - t1 < 60) (h3 : 60 ≤ t3 - t1) :
    (rateLimiter60.acquire t1).1 = true ∧
    ((rateLimiter60.acquire t1).2.acquire t2).1 = false ∧
    (((rateLimiter60.acquire t1).2.acquire t2).2.acquire t3).1 = true ∧
    (∀ (r : RateLimiter) (now : ℚ), (r.acquire now).1 = true ↔
      (r.requests.filter (fun ts => decide (now - ts < r.window_seconds))).length
        < r.requests_per_window) ∧
    (∀ (r : RateLimiter) (now : ℚ), (r.acquire now).1 = true →
      (r.acquire now).2.requests =
        r.requests.filter (fun ts => decide (now - ts < r.window_seconds)) ++ [now]) := by
  have hs1 : (rateLimiter60.acquire t1).2 =
      { requests_per_window := 1, window_seconds := 60, requests := [t1] } := rfl
  have hf2 : ({ requests_per_window := 1, window_seconds := 60, requests := [t1] } :
      RateLimiter).acquire t2 =
      (false, { requests_per_window := 1, window_seconds := 60, requests := [t1] }) := by
    simp [RateLimiter.acquire, decide_eq_true h2]
  have hf3 : ({ requests_per_window := 1, window_seconds := 60, requests := [t1] } :
      RateLimiter).acquire t3 =
      (true, { requests_per_window := 1, window_seconds := 60, requests := [t3] }) := by
    simp [RateLimiter.acquire, decide_eq_false (not_lt.mpr h3)]
  refine ⟨rfl, ?_, ?_, ?_, ?_⟩
  · rw [hs1, hf2]
  · rw [hs1, hf2, hf3]
  · intro r now
    by_cases hc : (r.requests.filter
        (fun ts => decide (now - ts < r.window_seconds))).length < r.requests_per_window
    · simp [RateLimiter.acquire, hc]
    · simp [RateLimiter.acquire, hc]
  · intro r now
    by_cases hc : (r.requests.filter
        (fun ts => decide (now - ts < r.window_seconds))).length < r.requests_per_window
    · simp [RateLimiter.acquire, hc]
    · simp [RateLimiter.acquire, hc]

/-- Witness for C3 at concrete call times 0, 30, 60. -/
theorem C3_limiter_witness :
    ((rateLimiter60.acquire 0).2.acquire 30).1 = false ∧
    (((rateLimiter60.acquire 0).2.acquire 30).2.acquire 60).1 = true := by
  have h := C3_limiter 0 30 60 (by norm_num) (by norm_num)
  exact ⟨h.2.1, h.2.2.1⟩

/-- Claim C4 fails as stated for missing fields: a record with every
required field absent is not skipped (Python `obj.get(key, 0)` defaults
each missing field to 0), so a batch of just that record yields one output
object, where the claim says zero. -/
theorem C4_counterexample :
    noFieldsRec.semimajorAxis = FieldVal.absent ∧ noFieldsRec.perigee = FieldVal.absent ∧
    (process_space_objects trig0 0 [noFieldsRec]).map List.length = some 1 := by
  refine ⟨rfl, rfl, ?_⟩
  simp [process_space_objects, processRecord, calculate_risk_level, noFieldsRec,
    FieldVal.toFloat]

/-- Claim C4 (amended): a record with a present but non-numeric required
field (semi-major axis, eccentricity, inclination, or perigee) is skipped
and excluded from the output, while a missing required field defaults to 0
and the record is still transformed; all remaining well-formed records are
transformed and one bad record never aborts the batch. -/
theorem C4_skip_bad_records (T : TrigModel) (phase : ℚ) (data : List RawRecord)
    (h : data ≠ []) :
    (∃ out, process_space_objects T phase data = some out ∧
      out.length = (data.filter recordOk).length) ∧
    (∀ obj : RawRecord, (processRecord T phase obj).isSome = recordOk obj) ∧
    FieldVal.toFloat FieldVal.absent = some 0 ∧
    (∀ s : String, FieldVal.toFloat (FieldVal.str s) = none) := by
  refine ⟨?_, fun obj => processRecord_isSome T phase obj, rfl, fun s => rfl⟩
  have he : data.isEmpty = false := by
    cases data with
    | nil => exact absurd rfl h
    | cons a l => rfl
  refine ⟨data.filterMap (processRecord T phase), ?_, filterMap_length_eq_count T phase data⟩
  simp [process_space_objects, he]

/-- Witness for C4: three raw records with one malformed yield exactly two
output objects. -/
theorem C4_skip_bad_records_witness :
    (process_space_objects trig0 0 [goodRec1, badRec, goodRec2]).map List.length
      = some 2 := by
  obtain ⟨out, hout, hlen⟩ :=
    (C4_skip_bad_records trig0 0 [goodRec1, badRec, goodRec2] (by simp)).1
  rw [hout, Option.map_some', hlen]
  decide

/-- Claim C7 fails as stated: the transformer does classify an "UNKNOWN"
record as debris, but `calculate_risk_level` adds the 15 only when the raw
type string lowercases to exactly "debris", so an "UNKNOWN" record with
perigee 400 scores 70, not 85. -/
theorem C7_counterexample :
    (processRecord trig0 0 unknownRec).map (fun o => (o.type, o.risk_level))
      = some ("debris", 70) ∧ ((70 : ℤ) ≠ 85) := by
  exact ⟨by decide, by decide⟩

/-- Claim C7 (amended): a record whose type string is case-insensitively
"unknown" is classified as debris by the transformer, but its risk score
does not include the +15 debris adjustment (which applies only when the
raw type string is case-insensitively "debris"); an "UNKNOWN" record with
perigee 400 scores 70, while a "DEBRIS" record with perigee 400 scores 85. -/
theorem C7_unknown_is_debris (T : TrigModel) (phase : ℚ) (obj : RawRecord)
    (o : SpaceObject) (hu : pyLower obj.objectType = "unknown")
    (ho : processRecord T phase obj = some o) :
    o.type = "debris" ∧
    (∀ p : ℚ, obj.perigee.toFloat = some p →
      o.risk_level = max 0 (min 100
        (if p < 500 then (70 : ℤ) else if p > 35000 then 30 else 50))) ∧
    (processRecord trig0 0 unknownRec).map (fun x => x.risk_level) = some 70 ∧
    (processRecord trig0 0 goodRec1).map (fun x => x.risk_level) = some 85 := by
  obtain ⟨hty, hrisk⟩ := processRecord_fields T phase obj o ho
  have hnd : (pyLower obj.objectType = "debris") = False := by
    rw [hu]; simp
  refine ⟨?_, ?_, by decide, by decide⟩
  · rw [hty, hu]; simp
  · intro p hp
    have hval : calculate_risk_level obj = some (max 0 (min 100
        (if p < 500 then (70 : ℤ) else if p > 35000 then 30 else 50))) := by
      simp only [calculate_risk_level, hp, Option.map_some']
      congr 1
      simp only [hnd, if_false]
      by_cases h1 : p < 500 <;> by_cases h2 : p > 35000 <;>
        simp [h1, h2]
    rw [hval] at hrisk
    exact (Option.some_inj.mp hrisk).symm

/-- Witness for C7: the concrete "UNKNOWN" record and its processed
object. -/
theorem C7_unknown_is_debris_witness :
    unknownObj.type = "debris" ∧ unknownObj.risk_level = 70 := by
  have h := C7_unknown_is_debris trig0 0 unknownRec unknownObj (by decide) rfl
  refine ⟨h.1, ?_⟩
  have := h.2.1 400 rfl
  rw [this]
  decide

/-- Claim C5 fails as stated: with a success response whose payload is an
empty array and attempts remaining (three iterations available), the
orchestrator returns the no-data result immediately, performing no sleep
and no retry, where the claim says it sleeps retryDelay and retries. -/
theorem C5_counterexample :
    fetchLoop trig0 0 (fun _ => ApiResponse.records []) (fun _ => 0) 3 0 60
      = ([], []) := rfl

/-- Claim C5 (amended): a success response whose payload is an empty array
ends the cycle with "no data" immediately, without retrying, even when
attempts remain; a success response whose transform produces no output
sleeps retryDelay and retries when attempts remain, and ends the cycle as
exhausted (no data) when none remain. -/
theorem C5_empty_payload (T : TrigModel) (phase : ℚ) (resp : ℕ → ApiResponse)
    (jit : ℕ → ℚ) (remaining attempt : ℕ) (rd : ℚ) (data : List RawRecord)
    (hresp : resp attempt = ApiResponse.records data) :
    (data = [] → fetchLoop T phase resp jit (remaining + 1) attempt rd = ([], [])) ∧
    (data ≠ [] → process_space_objects T phase data = some [] → 0 < remaining →
      fetchLoop T phase resp jit (remaining + 1) attempt rd =
        (rd :: (fetchLoop T phase resp jit remaining (attempt + 1) rd).1,
          (fetchLoop T phase resp jit remaining (attempt + 1) rd).2)) ∧
    (data ≠ [] → process_space_objects T phase data = some [] → remaining = 0 →
      fetchLoop T phase resp jit (remaining + 1) attempt rd = ([], [])) := by
  refine ⟨fun hd => ?_, fun hd hp hr => ?_, fun hd hp hr => ?_⟩
  · subst hd
    simp [fetchLoop, hresp]
  · have hde : data.isEmpty = false := by
      cases data with
      | nil => exact absurd rfl hd
      | cons a l => rfl
    simp [fetchLoop, hresp, hde, hp, hr]
  · subst hr
    have hde : data.isEmpty = false := by
      cases data with
      | nil => exact absurd rfl hd
      | cons a l => rfl
    simp [fetchLoop, hresp, hde, hp]

/-- Witness for C5: an all-bad (hence transform-empty) batch with one
attempt left gives the exhausted no-data result. -/
theorem C5_empty_payload_witness :
    fetchLoop trig0 0 (fun _ => ApiResponse.records [badRec]) (fun _ => 0) 1 2 60
      = ([], []) := by
  exact (C5_empty_payload trig0 0 (fun _ => ApiResponse.records [badRec]) (fun _ => 0)
    0 2 60 [badRec] rfl).2.2 (by simp) (by decide) rfl

/-- Claim C6: a rate-limit error payload with attempts remaining sleeps
min(300, retryDelay * 2 ^ attempt) plus the jitter draw (which lies in
[0, 10%] of that backoff); with a provider that reports a rate limit on
exactly the first two attempts and then succeeds, the cycle succeeds on
the third attempt (two sleeps) and the backoff delays are monotonically
non-decreasing across attempts. -/
theorem C6_rate_limit_backoff (T : TrigModel) (phase : ℚ) (resp : ℕ → ApiResponse)
    (jit : ℕ → ℚ) (m0 m1 : String) (data : List RawRecord) (out : List SpaceObject)
    (h0 : resp 0 = ApiResponse.errorPayload m0) (hm0 : isRateLimitMsg m0 = true)
    (h1 : resp 1 = ApiResponse.errorPayload m1) (hm1 : isRateLimitMsg m1 = true)
    (h2 : resp 2 = ApiResponse.records data) (hd : data.isEmpty = false)
    (hout : process_space_objects T phase data = some out) (hne : out.isEmpty = false)
    (hj0 : 0 ≤ jit 0) (hj0b : jit 0 ≤ (1 / 10) * min 300 (60 * 2 ^ 0))
    (hj1 : 0 ≤ jit 1) (hj1b : jit 1 ≤ (1 / 10) * min 300 (60 * 2 ^ 1)) :
    fetchLoop T phase resp jit 3 0 60 =
      ([min 300 (60 * 2 ^ 0) + jit 0, min 300 (60 * 2 ^ 1) + jit 1], out) ∧
    min 300 ((60 : ℚ) * 2 ^ 0) + jit 0 ≤ min 300 ((60 : ℚ) * 2 ^ 1) + jit 1 := by
  constructor
  · simp [fetchLoop, h0, hm0, h1, hm1, h2, hd, hout, hne]
  · have e0 : min 300 ((60 : ℚ) * 2 ^ 0) = 60 := by norm_num [min_def]
    have e1 : min 300 ((60 : ℚ) * 2 ^ 1) = 120 := by norm_num [min_def]
    rw [e0] at hj0b ⊢
    rw [e1]
    linarith

/-- Witness for C6 at a concrete rate-limiting provider with zero jitter. -/
theorem C6_rate_limit_backoff_witness :
    fetchLoop trig0 0 respRL (fun _ => 0) 3 0 60 = ([60, 120], [debrisObj]) := by
  have h := C6_rate_limit_backoff trig0 0 respRL (fun _ => 0)
    "You have exceeded the rate limit" "Rate Limit exceeded again" [goodRec1] [debrisObj]
    rfl (by decide) rfl (by decide) rfl rfl rfl rfl
    le_rfl (by norm_num [min_def]) le_rfl (by norm_num [min_def])
  rw [h.1]
  norm_num [min_def]

/-- Claim C9 fails as stated: absent credentials do make session
establishment fail immediately (no login attempt), but this is not a
fatal fail-fast at startup: the fetch cycle returns the ordinary empty
"no data" result, which the update loop handles by emitting a retry
status message and continuing. -/
theorem C9_counterexample :
    get_space_track_session none none true = none ∧
    fetch_space_objects none none true trig0 0 (fun _ => ApiResponse.unexpected)
      (fun _ => 0) = [] ∧
    ws_step none [] 0 = (WsAction.statusRetrying 1, 1) := ⟨rfl, rfl, rfl⟩

/-- Claim C9 (amended): when either credential variable is absent (or
empty), session establishment returns no session immediately, the fetch
cycle resolves to the empty "no data" result, and the update loop treats
it as a recoverable failure (retry status below three consecutive
failures, an error status with a counter reset at three), never as a
fatal startup abort. -/
theorem C9_missing_credentials (user pw : Option String) (loginOk : Bool)
    (T : TrigModel) (phase : ℚ) (resp : ℕ → ApiResponse) (jit : ℕ → ℚ) (rc : ℕ)
    (h : credPresent user = false ∨ credPresent pw = false) :
    get_space_track_session user pw loginOk = none ∧
    fetch_space_objects user pw loginOk T phase resp jit = [] ∧
    (rc + 1 < 3 → ws_step none [] rc = (WsAction.statusRetrying (rc + 1), rc + 1)) ∧
    (3 ≤ rc + 1 → ws_step none [] rc = (WsAction.errorMaxRetries, 0)) := by
  have hs : get_space_track_session user pw loginOk = none := by
    rcases h with h | h <;> simp [get_space_track_session, h]
  refine ⟨hs, ?_, fun hlt => ?_, fun hge => ?_⟩
  · simp [fetch_space_objects, hs]
  · simp [ws_step]
    omega
  · simp [ws_step]
    omega

/-- Witness for C9 with both credentials unset. -/
theorem C9_missing_credentials_witness :
    fetch_space_objects none none false trig0 0 (fun _ => ApiResponse.unexpected)
      (fun _ => 0) = [] ∧
    ws_step none [] 1 = (WsAction.statusRetrying 2, 2) := by
  have h := C9_missing_credentials none none false trig0 0
    (fun _ => ApiResponse.unexpected) (fun _ => 0) 1 (Or.inl rfl)
  exact ⟨h.2.1, h.2.2.1 (by norm_num)⟩

/-- Helper: with enough fuel, the batches concatenate back to the list. -/
theorem batchesAux_flatten (fuel : ℕ) (l : List SpaceObject) (h : l.length ≤ fuel) :
    (batchesAux fuel l).flatten = l := by
  induction fuel generalizing l with
  | zero =>
    cases l with
    | nil => rfl
    | cons a r => simp at h
  | succ f ih =>
    cases l with
    | nil => rfl
    | cons a r =>
      have hlen : ((a :: r).drop 10).length ≤ f := by
        simp only [List.length_drop, List.length_cons]
        simp only [List.length_cons] at h
        omega
      simp only [batchesAux, List.flatten_cons]
      rw [ih _ hlen]
      exact List.take_append_drop 10 (a :: r)

/-- Helper: every batch has at most 10 objects. -/
theorem batchesAux_length_le (fuel : ℕ) (l : List SpaceObject) :
    ∀ b ∈ batchesAux fuel l, b.length ≤ 10 := by
  induction fuel generalizing l with
  | zero =>
    intro b hb
    simp [batchesAux] at hb
  | succ f ih =>
    intro b hb
    cases l with
    | nil => simp [batchesAux] at hb
    | cons a r =>
      simp only [batchesAux, List.mem_cons] at hb
      rcases hb with hb | hb
      · subst hb
        simp [List.length_take]
      · exact ih _ b hb

/-- Helper: the delivery loop stops no later than the first failing send,
so with send index starting at `k` and `ok j = false`, at most `j - k`
batches go out. -/
theorem deliverBatches_stop (ok : ℕ → Bool) (bs : List (List SpaceObject)) (k j : ℕ)
    (hk : k ≤ j) (hj : ok j = false) :
    (deliverBatches ok k bs).length ≤ j - k := by
  induction bs generalizing k with
  | nil => simp [deliverBatches]
  | cons b rest ih =>
    by_cases h : ok k = true
    · have hne : k ≠ j := by
        intro e
        rw [e, hj] at h
        cases h
      have hrec := ih (k + 1) (by omega)
      simp only [deliverBatches, h, if_true, List.length_cons]
      omega
    · simp [deliverBatches, h]

/-- Claim C8 fails as stated: when the very first batch send to a newly
registered client fails, its remaining batches are aborted, but the
client is NOT removed from the registry (the inner handler swallows the
send error and only breaks out of the batch loop). -/
theorem C8_counterexample :
    (register_client [] cFail snap15).registry = [cFail] ∧
    ([cFail] : List ClientModel) ≠ [] ∧
    (register_client [] cFail snap15).delivered = [] := by
  refine ⟨rfl, by simp, rfl⟩

/-- Claim C8 (amended): on a successful accept the hub appends the client
to the registry and delivers the current snapshot split into batches of at
most 10 objects (whose concatenation is the full snapshot), with a 0.1s
pacing sleep after each sent batch; a failing batch send aborts the
remaining batches for that client only (at most j batches go out when the
j-th send fails), but the client stays in the registry, and other clients
are unaffected. -/
theorem C8_register (hub : List ClientModel) (c : ClientModel) (snap : List SpaceObject)
    (hacc : c.acceptOk = true) :
    (register_client hub c snap).registry = hub ++ [c] ∧
    (register_client hub c snap).delivered = deliverBatches c.sendOk 0 (batchesOf10 snap) ∧
    (batchesOf10 snap).flatten = snap ∧
    (∀ b ∈ batchesOf10 snap, b.length ≤ 10) ∧
    (∀ j, c.sendOk j = false → (register_client hub c snap).delivered.length ≤ j) ∧
    (register_client hub c snap).sleeps =
      (register_client hub c snap).delivered.map (fun _ => (1 / 10 : ℚ)) := by
  simp only [register_client, hacc, if_true]
  refine ⟨trivial, trivial, batchesAux_flatten _ _ le_rfl, batchesAux_length_le _ _, ?_,
    trivial⟩
  intro j hj
  simpa using deliverBatches_stop c.sendOk (batchesOf10 snap) 0 j (Nat.zero_le j) hj

/-- Witness for C8 with an all-successful client and a 15-object snapshot. -/
theorem C8_register_witness :
    (register_client [] cGood snap15).registry = [cGood] ∧
    (batchesOf10 snap15).flatten = snap15 := by
  have h := C8_register [] cGood snap15 rfl
  exact ⟨h.1, h.2.2.1⟩

end SpaceDebris
